import Mathlib

/-!
Verification of the cloud-secure frontend dashboard logic.

The development shallowly embeds the pure computational core of the two
JavaScript source files:

* `frontend/static/js/dashboard.js` — aggregation (`getRiskLevel`,
  `countCriticalIssues`, chart-data computations) and presentation mapping
  (`getScoreColor`, `getScoreGradient`, `getRiskColor`,
  `createAssessmentCard`, `createRecommendationCard`, `updateKPICards`);
* `frontend/static/js/api-client.js` — `APIClient.request` with its
  mock-data fallback `mockApiResponse`.

JavaScript numbers are modelled as rationals (`ℚ`), JS objects as Lean
structures whose possibly-absent fields are `Option`s, and the `x || d`
defaulting idiom by explicit helpers that also treat the falsy values
`""` and `0` the way JavaScript does.  DOM and chart rendering are
external sinks: each `update*`/`create*` function is embedded as the pure
computation of the data it hands to that sink.  A function that can throw
a `TypeError` is embedded with an `Except` result.
-/

/-- JS `o || d` for string-valued fields: `undefined` and the falsy `""`
are replaced by the default. -/
def jsOrStr (o : Option String) (d : String) : String :=
  match o with
  | none => d
  | some s => if s = "" then d else s

/-- JS `o || d` for numeric fields: `undefined` and the falsy `0` are
replaced by the default. -/
def jsOrQ (o : Option ℚ) (d : ℚ) : ℚ :=
  match o with
  | none => d
  | some x => if x = 0 then d else x

/-- JS truthiness of a possibly-absent boolean field (`undefined` is falsy). -/
def truthy (o : Option Bool) : Bool :=
  match o with
  | none => false
  | some b => b

/-- JS `o || []` for list fields: only `undefined` is replaced (an empty
array is truthy in JS). -/
def jsOrList (o : Option (List String)) : List String :=
  o.getD []

/-- JS `Math.round`: halves round toward positive infinity. -/
def jsRound (q : ℚ) : Int :=
  ⌊q + 1/2⌋

/-- One assessment record.  EC2 and S3 assessments are JS objects with
overlapping field sets, so a single structure with optional fields covers
both variants. -/
structure Assessment where
  instance_name : Option String := none
  bucket_name : Option String := none
  security_score : Option ℚ := none
  risk_level : Option String := none
  ebs_encryption_enabled : Option Bool := none
  has_public_ip : Option Bool := none
  encryption_enabled : Option Bool := none
  public_access_block_disabled : Option Bool := none
  state : Option String := none
  issues : Option (List String) := none
deriving DecidableEq, Repr

/-- One recommendation record. -/
structure Recommendation where
  title : Option String := none
  description : Option String := none
  priority : Option String := none
  issue : Option String := none
  resource_type : Option String := none
deriving DecidableEq, Repr

/-- A per-category summary entry (`average_score`, `count`). -/
structure SummaryEntry where
  average_score : Option ℚ := none
  count : Option Nat := none
deriving DecidableEq, Repr

/-- The `summary` object of the dashboard payload. -/
structure Summary where
  overall : Option SummaryEntry := none
  ec2 : Option SummaryEntry := none
  s3 : Option SummaryEntry := none
deriving DecidableEq, Repr

/-- The `ec2` / `s3` wrapper object holding an `assessments` array. -/
structure AssessmentsWrap where
  assessments : Option (List Assessment) := none
deriving DecidableEq, Repr

/-- The dashboard payload (`dashboardData` global). -/
structure DashboardData where
  summary : Option Summary := none
  ec2 : Option AssessmentsWrap := none
  s3 : Option AssessmentsWrap := none
  recommendations : Option (List Recommendation) := none
deriving DecidableEq, Repr

/-- JS `d.ec2?.assessments || []`. -/
def getAssessments (w : Option AssessmentsWrap) : List Assessment :=
  match w with
  | none => []
  | some w => w.assessments.getD []

/-- `getRiskLevel` from dashboard.js: score thresholds 80/60/40. -/
def getRiskLevel (score : ℚ) : String :=
  if score ≥ 80 then "Low"
  else if score ≥ 60 then "Medium"
  else if score ≥ 40 then "High"
  else "Critical"

/-- `getScoreColor` from dashboard.js. -/
def getScoreColor (score : ℚ) : String :=
  if score ≥ 80 then "#2D8B47"
  else if score ≥ 60 then "#FFC107"
  else if score ≥ 40 then "#FF9800"
  else "#D32F2F"

/-- `getScoreGradient` from dashboard.js. -/
def getScoreGradient (score : ℚ) : String :=
  if score ≥ 80 then "linear-gradient(90deg, #2D8B47, #4CAF50)"
  else if score ≥ 60 then "linear-gradient(90deg, #FFC107, #FF9800)"
  else if score ≥ 40 then "linear-gradient(90deg, #FF9800, #FF6B6B)"
  else "linear-gradient(90deg, #D32F2F, #F44336)"

/-- `getRiskColor` from dashboard.js: lookup table with neutral fallback. -/
def getRiskColor (riskLevel : String) : String :=
  if riskLevel = "Low" then "#2D8B47"
  else if riskLevel = "Medium" then "#FFC107"
  else if riskLevel = "High" then "#FF9800"
  else if riskLevel = "Critical" then "#D32F2F"
  else "#B0B8C1"

/-- Claim C1: `getRiskLevel` returns "Low" when score ≥ 80, "Medium" when
60 ≤ score < 80, "High" when 40 ≤ score < 60, and "Critical" otherwise;
it is total, always producing one of the four levels. -/
theorem getRiskLevel_tiers (score : ℚ) :
    (80 ≤ score → getRiskLevel score = "Low") ∧
    (60 ≤ score → score < 80 → getRiskLevel score = "Medium") ∧
    (40 ≤ score → score < 60 → getRiskLevel score = "High") ∧
    (score < 40 → getRiskLevel score = "Critical") ∧
    (getRiskLevel score = "Low" ∨ getRiskLevel score = "Medium" ∨
     getRiskLevel score = "High" ∨ getRiskLevel score = "Critical") := by
  unfold getRiskLevel
  refine ⟨?_, ?_, ?_, ?_, ?_⟩ <;> intros <;> split_ifs <;>
    first | rfl | (exfalso; linarith) | simp

/-- Concrete instantiations of `getRiskLevel_tiers`, discharging each
hypothesis at a sample score. -/
theorem getRiskLevel_tiers_witness :
    getRiskLevel 85 = "Low" ∧ getRiskLevel 60 = "Medium" ∧
    getRiskLevel 40 = "High" ∧ getRiskLevel 39 = "Critical" :=
  ⟨(getRiskLevel_tiers 85).1 (by norm_num),
   (getRiskLevel_tiers 60).2.1 (by norm_num) (by norm_num),
   (getRiskLevel_tiers 40).2.2.1 (by norm_num) (by norm_num),
   (getRiskLevel_tiers 39).2.2.2.1 (by norm_num)⟩

/-- Claim C2: on [0,100] the score-to-color and score-to-gradient maps use
the same inclusive cut points 40/60/80 as `getRiskLevel`: each color tier
and gradient tier holds exactly when the corresponding risk level does. -/
theorem getScoreColor_consistent (s : ℚ) (h0 : 0 ≤ s) (h100 : s ≤ 100) :
    (getScoreColor s = "#2D8B47" ↔ getRiskLevel s = "Low") ∧
    (getScoreColor s = "#FFC107" ↔ getRiskLevel s = "Medium") ∧
    (getScoreColor s = "#FF9800" ↔ getRiskLevel s = "High") ∧
    (getScoreColor s = "#D32F2F" ↔ getRiskLevel s = "Critical") ∧
    (getScoreGradient s = "linear-gradient(90deg, #2D8B47, #4CAF50)" ↔
      getRiskLevel s = "Low") ∧
    (getScoreGradient s = "linear-gradient(90deg, #FFC107, #FF9800)" ↔
      getRiskLevel s = "Medium") ∧
    (getScoreGradient s = "linear-gradient(90deg, #FF9800, #FF6B6B)" ↔
      getRiskLevel s = "High") ∧
    (getScoreGradient s = "linear-gradient(90deg, #D32F2F, #F44336)" ↔
      getRiskLevel s = "Critical") := by
  unfold getScoreColor getScoreGradient getRiskLevel
  split_ifs <;> simp

/-- Concrete instantiation of `getScoreColor_consistent` at score 70. -/
theorem getScoreColor_consistent_witness :
    (getScoreColor 70 = "#FFC107" ↔ getRiskLevel 70 = "Medium") :=
  (getScoreColor_consistent 70 (by norm_num) (by norm_num)).2.1

/-- The four risk buckets of the risk-distribution chart. -/
structure RiskCounts where
  Low : Nat
  Medium : Nat
  High : Nat
  Critical : Nat
deriving DecidableEq, Repr

/-- The loop body of `updateRiskDistributionChart`: bump the bucket named
by the (defaulted) risk level, leaving the counts unchanged when the name
is not one of the four buckets. -/
def bumpRisk (rc : RiskCounts) (risk : String) : RiskCounts :=
  if risk = "Low" then { rc with Low := rc.Low + 1 }
  else if risk = "Medium" then { rc with Medium := rc.Medium + 1 }
  else if risk = "High" then { rc with High := rc.High + 1 }
  else if risk = "Critical" then { rc with Critical := rc.Critical + 1 }
  else rc

/-- `updateRiskDistributionChart` from dashboard.js, embedded as the
computation of the chart's dataset: fold over the concatenation of the
EC2 and S3 assessment lists, bumping the bucket matching
`assessment.risk_level || 'Unknown'`. -/
def updateRiskDistributionChart (d : DashboardData) : RiskCounts :=
  (getAssessments d.ec2 ++ getAssessments d.s3).foldl
    (fun rc a => bumpRisk rc (jsOrStr a.risk_level "Unknown")) ⟨0, 0, 0, 0⟩

/-- The dataset of the EC2 breakdown doughnut chart. -/
structure EC2Breakdown where
  encrypted : Nat
  notEncrypted : Nat
  publicAccess : Nat
  restricted : Nat
deriving DecidableEq, Repr

/-- The loop body of `updateEC2BreakdownChart`: two independent binary
splits, one on the encryption flag and one on the public-IP flag. -/
def bumpEC2 (b : EC2Breakdown) (a : Assessment) : EC2Breakdown :=
  let b1 :=
    if truthy a.ebs_encryption_enabled then { b with encrypted := b.encrypted + 1 }
    else { b with notEncrypted := b.notEncrypted + 1 }
  if truthy a.has_public_ip then { b1 with publicAccess := b1.publicAccess + 1 }
  else { b1 with restricted := b1.restricted + 1 }

/-- `updateEC2BreakdownChart` from dashboard.js, embedded as the
computation of the chart's dataset. -/
def updateEC2BreakdownChart (d : DashboardData) : EC2Breakdown :=
  (getAssessments d.ec2).foldl bumpEC2 ⟨0, 0, 0, 0⟩

/-- The dataset of the S3 breakdown doughnut chart. -/
structure S3Breakdown where
  encrypted : Nat
  notEncrypted : Nat
  publicAccessAllowed : Nat
  secured : Nat
deriving DecidableEq, Repr

/-- The loop body of `updateS3BreakdownChart`. -/
def bumpS3 (b : S3Breakdown) (a : Assessment) : S3Breakdown :=
  let b1 :=
    if truthy a.encryption_enabled then { b with encrypted := b.encrypted + 1 }
    else { b with notEncrypted := b.notEncrypted + 1 }
  if !truthy a.public_access_block_disabled then { b1 with secured := b1.secured + 1 }
  else { b1 with publicAccessAllowed := b1.publicAccessAllowed + 1 }

/-- `updateS3BreakdownChart` from dashboard.js, embedded as the
computation of the chart's dataset. -/
def updateS3BreakdownChart (d : DashboardData) : S3Breakdown :=
  (getAssessments d.s3).foldl bumpS3 ⟨0, 0, 0, 0⟩

/-- The fold inside `countCriticalIssues`. -/
def countCriticalFold (l : List Assessment) : Nat :=
  l.foldl (fun c a => if a.risk_level = some "Critical" then c + 1 else c) 0

/-- `countCriticalIssues` from dashboard.js: strict-equality count of
`'Critical'` entries over the concatenation of both assessment lists. -/
def countCriticalIssues (d : DashboardData) : Nat :=
  countCriticalFold (getAssessments d.ec2 ++ getAssessments d.s3)

theorem bumpRisk_Low (rc : RiskCounts) (r : String) :
    (bumpRisk rc r).Low = rc.Low + (if r = "Low" then 1 else 0) := by
  unfold bumpRisk; split_ifs <;> simp_all

theorem bumpRisk_Medium (rc : RiskCounts) (r : String) :
    (bumpRisk rc r).Medium = rc.Medium + (if r = "Medium" then 1 else 0) := by
  unfold bumpRisk; split_ifs <;> simp_all

theorem bumpRisk_High (rc : RiskCounts) (r : String) :
    (bumpRisk rc r).High = rc.High + (if r = "High" then 1 else 0) := by
  unfold bumpRisk; split_ifs <;> simp_all

theorem bumpRisk_Critical (rc : RiskCounts) (r : String) :
    (bumpRisk rc r).Critical = rc.Critical + (if r = "Critical" then 1 else 0) := by
  unfold bumpRisk; split_ifs <;> simp_all

/-- `assessment.risk_level || 'Unknown'` equals one of the four bucket
names exactly when `risk_level` is present and equal to it (the bucket
names differ from both falsy `""` and the default `"Unknown"`). -/
theorem jsOrStr_eq_bucket (o : Option String) (s : String)
    (hs : s ≠ "Unknown") (hs2 : s ≠ "") :
    (jsOrStr o "Unknown" = s) ↔ o = some s := by
  unfold jsOrStr
  cases o with
  | none => simp [Ne.symm hs]
  | some v =>
    by_cases hv : v = ""
    · simp [hv, Ne.symm hs, Ne.symm hs2]
    · simp [hv]

theorem riskFold_Low (l : List Assessment) (rc : RiskCounts) :
    (l.foldl (fun rc a => bumpRisk rc (jsOrStr a.risk_level "Unknown")) rc).Low =
      rc.Low + l.countP (fun a => a.risk_level = some "Low") := by
  induction l generalizing rc with
  | nil => simp
  | cons a t ih =>
    rw [List.foldl_cons, ih, List.countP_cons, bumpRisk_Low]
    have h := jsOrStr_eq_bucket a.risk_level "Low" (by decide) (by decide)
    by_cases hc : a.risk_level = some "Low"
    · rw [if_pos (h.mpr hc)]
      simp [hc] <;> omega
    · rw [if_neg fun hh => hc (h.mp hh)]
      simp [hc] <;> omega

theorem riskFold_Medium (l : List Assessment) (rc : RiskCounts) :
    (l.foldl (fun rc a => bumpRisk rc (jsOrStr a.risk_level "Unknown")) rc).Medium =
      rc.Medium + l.countP (fun a => a.risk_level = some "Medium") := by
  induction l generalizing rc with
  | nil => simp
  | cons a t ih =>
    rw [List.foldl_cons, ih, List.countP_cons, bumpRisk_Medium]
    have h := jsOrStr_eq_bucket a.risk_level "Medium" (by decide) (by decide)
    by_cases hc : a.risk_level = some "Medium"
    · rw [if_pos (h.mpr hc)]
      simp [hc] <;> omega
    · rw [if_neg fun hh => hc (h.mp hh)]
      simp [hc] <;> omega

theorem riskFold_High (l : List Assessment) (rc : RiskCounts) :
    (l.foldl (fun rc a => bumpRisk rc (jsOrStr a.risk_level "Unknown")) rc).High =
      rc.High + l.countP (fun a => a.risk_level = some "High") := by
  induction l generalizing rc with
  | nil => simp
  | cons a t ih =>
    rw [List.foldl_cons, ih, List.countP_cons, bumpRisk_High]
    have h := jsOrStr_eq_bucket a.risk_level "High" (by decide) (by decide)
    by_cases hc : a.risk_level = some "High"
    · rw [if_pos (h.mpr hc)]
      simp [hc] <;> omega
    · rw [if_neg fun hh => hc (h.mp hh)]
      simp [hc] <;> omega

theorem riskFold_Critical (l : List Assessment) (rc : RiskCounts) :
    (l.foldl (fun rc a => bumpRisk rc (jsOrStr a.risk_level "Unknown")) rc).Critical =
      rc.Critical + l.countP (fun a => a.risk_level = some "Critical") := by
  induction l generalizing rc with
  | nil => simp
  | cons a t ih =>
    rw [List.foldl_cons, ih, List.countP_cons, bumpRisk_Critical]
    have h := jsOrStr_eq_bucket a.risk_level "Critical" (by decide) (by decide)
    by_cases hc : a.risk_level = some "Critical"
    · rw [if_pos (h.mpr hc)]
      simp [hc] <;> omega
    · rw [if_neg fun hh => hc (h.mp hh)]
      simp [hc] <;> omega

/-- Claim C4: the risk distribution iterates the concatenation of the EC2
and S3 lists, each bucket counting exactly the entries whose `risk_level`
equals that bucket's name; entries with any other (or absent) risk level
are ignored, and on an empty payload all four counts are 0. -/
theorem updateRiskDistributionChart_spec :
    (∀ d : DashboardData,
      updateRiskDistributionChart d =
        { Low := (getAssessments d.ec2 ++ getAssessments d.s3).countP
            (fun a => a.risk_level = some "Low"),
          Medium := (getAssessments d.ec2 ++ getAssessments d.s3).countP
            (fun a => a.risk_level = some "Medium"),
          High := (getAssessments d.ec2 ++ getAssessments d.s3).countP
            (fun a => a.risk_level = some "High"),
          Critical := (getAssessments d.ec2 ++ getAssessments d.s3).countP
            (fun a => a.risk_level = some "Critical") }) ∧
    updateRiskDistributionChart {} = { Low := 0, Medium := 0, High := 0, Critical := 0 } := by
  constructor
  · intro d
    unfold updateRiskDistributionChart
    have hL := riskFold_Low (getAssessments d.ec2 ++ getAssessments d.s3) ⟨0, 0, 0, 0⟩
    have hM := riskFold_Medium (getAssessments d.ec2 ++ getAssessments d.s3) ⟨0, 0, 0, 0⟩
    have hH := riskFold_High (getAssessments d.ec2 ++ getAssessments d.s3) ⟨0, 0, 0, 0⟩
    have hC := riskFold_Critical (getAssessments d.ec2 ++ getAssessments d.s3) ⟨0, 0, 0, 0⟩
    cases hfold : (getAssessments d.ec2 ++ getAssessments d.s3).foldl
      (fun rc a => bumpRisk rc (jsOrStr a.risk_level "Unknown")) ⟨0, 0, 0, 0⟩
    rw [hfold] at hL hM hH hC
    simp_all
  · rfl

theorem bumpEC2_enc (b : EC2Breakdown) (a : Assessment) :
    (bumpEC2 b a).encrypted + (bumpEC2 b a).notEncrypted =
      b.encrypted + b.notEncrypted + 1 := by
  unfold bumpEC2; split_ifs <;> simp <;> omega

theorem bumpEC2_pub (b : EC2Breakdown) (a : Assessment) :
    (bumpEC2 b a).publicAccess + (bumpEC2 b a).restricted =
      b.publicAccess + b.restricted + 1 := by
  unfold bumpEC2; split_ifs <;> simp <;> omega

theorem bumpS3_enc (b : S3Breakdown) (a : Assessment) :
    (bumpS3 b a).encrypted + (bumpS3 b a).notEncrypted =
      b.encrypted + b.notEncrypted + 1 := by
  unfold bumpS3; split_ifs <;> simp <;> omega

theorem bumpS3_pub (b : S3Breakdown) (a : Assessment) :
    (bumpS3 b a).publicAccessAllowed + (bumpS3 b a).secured =
      b.publicAccessAllowed + b.secured + 1 := by
  unfold bumpS3; split_ifs <;> simp <;> omega

theorem ec2Fold_enc (l : List Assessment) (b : EC2Breakdown) :
    (l.foldl bumpEC2 b).encrypted + (l.foldl bumpEC2 b).notEncrypted =
      b.encrypted + b.notEncrypted + l.length := by
  induction l generalizing b with
  | nil => simp
  | cons a t ih => rw [List.foldl_cons, ih, bumpEC2_enc]; simp; omega

theorem ec2Fold_pub (l : List Assessment) (b : EC2Breakdown) :
    (l.foldl bumpEC2 b).publicAccess + (l.foldl bumpEC2 b).restricted =
      b.publicAccess + b.restricted + l.length := by
  induction l generalizing b with
  | nil => simp
  | cons a t ih => rw [List.foldl_cons, ih, bumpEC2_pub]; simp; omega

theorem s3Fold_enc (l : List Assessment) (b : S3Breakdown) :
    (l.foldl bumpS3 b).encrypted + (l.foldl bumpS3 b).notEncrypted =
      b.encrypted + b.notEncrypted + l.length := by
  induction l generalizing b with
  | nil => simp
  | cons a t ih => rw [List.foldl_cons, ih, bumpS3_enc]; simp; omega

theorem s3Fold_pub (l : List Assessment) (b : S3Breakdown) :
    (l.foldl bumpS3 b).publicAccessAllowed + (l.foldl bumpS3 b).secured =
      b.publicAccessAllowed + b.secured + l.length := by
  induction l generalizing b with
  | nil => simp
  | cons a t ih => rw [List.foldl_cons, ih, bumpS3_pub]; simp; omega

/-- The single EC2 assessment of the spec's worked example. -/
def ec2Sample : Assessment :=
  { ebs_encryption_enabled := some false, has_public_ip := some true,
    risk_level := some "Medium" }

/-- The single S3 assessment of the spec's worked example. -/
def s3Sample : Assessment :=
  { encryption_enabled := some true, public_access_block_disabled := some false,
    risk_level := some "Low" }

/-- Payload holding exactly the two sample assessments. -/
def pairPayload : DashboardData :=
  { ec2 := some { assessments := some [ec2Sample] },
    s3 := some { assessments := some [s3Sample] } }

/-- Claim C5: the breakdown computations are two independent binary splits
(each split alone covers the whole list, so the four counters sum to twice
the list length, not a four-way partition), and on the worked example they
yield EC2 counts (0,1,1,0), S3 counts (1,0,0,1) and risk distribution
(Low 1, Medium 1, High 0, Critical 0). -/
theorem breakdown_spec :
    (∀ d : DashboardData,
      (updateEC2BreakdownChart d).encrypted + (updateEC2BreakdownChart d).notEncrypted =
        (getAssessments d.ec2).length ∧
      (updateEC2BreakdownChart d).publicAccess + (updateEC2BreakdownChart d).restricted =
        (getAssessments d.ec2).length) ∧
    (∀ d : DashboardData,
      (updateS3BreakdownChart d).encrypted + (updateS3BreakdownChart d).notEncrypted =
        (getAssessments d.s3).length ∧
      (updateS3BreakdownChart d).publicAccessAllowed + (updateS3BreakdownChart d).secured =
        (getAssessments d.s3).length) ∧
    updateEC2BreakdownChart pairPayload =
      { encrypted := 0, notEncrypted := 1, publicAccess := 1, restricted := 0 } ∧
    updateS3BreakdownChart pairPayload =
      { encrypted := 1, notEncrypted := 0, publicAccessAllowed := 0, secured := 1 } ∧
    updateRiskDistributionChart pairPayload =
      { Low := 1, Medium := 1, High := 0, Critical := 0 } := by
  refine ⟨fun d => ⟨?_, ?_⟩, fun d => ⟨?_, ?_⟩, rfl, rfl, rfl⟩
  · simpa using ec2Fold_enc (getAssessments d.ec2) ⟨0, 0, 0, 0⟩
  · simpa using ec2Fold_pub (getAssessments d.ec2) ⟨0, 0, 0, 0⟩
  · simpa using s3Fold_enc (getAssessments d.s3) ⟨0, 0, 0, 0⟩
  · simpa using s3Fold_pub (getAssessments d.s3) ⟨0, 0, 0, 0⟩

theorem countCriticalFold_eq_countP (l : List Assessment) :
    countCriticalFold l = l.countP (fun a => a.risk_level = some "Critical") := by
  unfold countCriticalFold
  have h : ∀ (l : List Assessment) (n : Nat),
      l.foldl (fun c a => if a.risk_level = some "Critical" then c + 1 else c) n =
        n + l.countP (fun a => a.risk_level = some "Critical") := by
    intro l
    induction l with
    | nil => simp
    | cons a t ih =>
      intro n
      rw [List.foldl_cons, List.countP_cons, ih]
      by_cases hc : a.risk_level = some "Critical" <;> simp [hc] <;> omega
  simpa using h l 0

/-- Claim C9: the critical count is invariant under permutation, both for
the underlying fold over an assessment list and for `countCriticalIssues`
over whole payloads whose combined lists are permutations of each other. -/
theorem countCritical_perm_invariant :
    (∀ l l' : List Assessment, l.Perm l' →
      countCriticalFold l = countCriticalFold l') ∧
    (∀ d d' : DashboardData,
      (getAssessments d.ec2 ++ getAssessments d.s3).Perm
        (getAssessments d'.ec2 ++ getAssessments d'.s3) →
      countCriticalIssues d = countCriticalIssues d') := by
  have hl : ∀ l l' : List Assessment, l.Perm l' →
      countCriticalFold l = countCriticalFold l' := by
    intro l l' hp
    rw [countCriticalFold_eq_countP, countCriticalFold_eq_countP]
    exact hp.countP_eq _
  exact ⟨hl, fun d d' hp => hl _ _ hp⟩

/-- A second payload holding the two sample assessments in swapped order. -/
def pairPayloadSwapped : DashboardData :=
  { ec2 := some { assessments := some [] },
    s3 := some { assessments := some [s3Sample, ec2Sample] } }

/-- A payload variant of `pairPayload` with both samples in the EC2 list. -/
def pairPayloadJoined : DashboardData :=
  { ec2 := some { assessments := some [ec2Sample, s3Sample] },
    s3 := some { assessments := some [] } }

/-- Concrete instantiation of `countCritical_perm_invariant`: swapping the
two sample assessments leaves the critical count unchanged. -/
theorem countCritical_perm_invariant_witness :
    countCriticalFold [ec2Sample, s3Sample] = countCriticalFold [s3Sample, ec2Sample] ∧
    countCriticalIssues pairPayloadJoined = countCriticalIssues pairPayloadSwapped :=
  ⟨countCritical_perm_invariant.1 _ _ (List.Perm.swap s3Sample ec2Sample []),
   countCritical_perm_invariant.2 pairPayloadJoined pairPayloadSwapped
     (by simpa [pairPayloadJoined, pairPayloadSwapped, getAssessments] using
       List.Perm.swap s3Sample ec2Sample [])⟩

/-- The dynamic fields of the assessment-card HTML produced by
`createAssessmentCard` in dashboard.js. -/
structure AssessmentCard where
  name : String
  typeLabel : String
  stateBadge : Option String
  score : ℚ
  scoreColor : String
  scoreGradient : String
  riskLevel : String
  riskColor : String
  issuesShown : List String
  moreMarker : Option String
  noIssues : Bool
deriving DecidableEq, Repr

/-- `createAssessmentCard` from dashboard.js, embedded as the computation
of the card's dynamic fields: defaults via `||`, the first three issues
via `issues.slice(0, 3)`, and the `... and N more issues` marker exactly
when more than three issues exist. -/
def createAssessmentCard (a : Assessment) (ty : String) : AssessmentCard :=
  let score := jsOrQ a.security_score 0
  let riskLevel := jsOrStr a.risk_level "Unknown"
  let name := jsOrStr a.instance_name (jsOrStr a.bucket_name "Unknown")
  let state := jsOrStr a.state "unknown"
  let issues := jsOrList a.issues
  { name := name,
    typeLabel := if ty = "EC2" then ty ++ " Instance" else "S3 Bucket",
    stateBadge := if ty = "EC2" then some state else none,
    score := score,
    scoreColor := getScoreColor score,
    scoreGradient := getScoreGradient score,
    riskLevel := riskLevel,
    riskColor := getRiskColor riskLevel,
    issuesShown := issues.take 3,
    moreMarker :=
      if 3 < issues.length then
        some ("... and " ++ toString (issues.length - 3) ++ " more issues")
      else none,
    noIssues := issues.isEmpty }

/-- An assessment with five issues. -/
def fiveIssues : Assessment :=
  { issues := some ["i1", "i2", "i3", "i4", "i5"] }

/-- Claim C6: when an assessment has more than three issues the card shows
exactly the first three in order plus a marker stating the remaining count
(length minus 3); with three or fewer issues all are shown and no marker
appears; with five issues exactly three are shown plus a marker naming the
remaining two. -/
theorem createAssessmentCard_truncates :
    (∀ (a : Assessment) (ty : String),
      (3 < (jsOrList a.issues).length →
        (createAssessmentCard a ty).issuesShown = (jsOrList a.issues).take 3 ∧
        (createAssessmentCard a ty).issuesShown.length = 3 ∧
        (createAssessmentCard a ty).moreMarker =
          some ("... and " ++ toString ((jsOrList a.issues).length - 3) ++
            " more issues")) ∧
      ((jsOrList a.issues).length ≤ 3 →
        (createAssessmentCard a ty).issuesShown = jsOrList a.issues ∧
        (createAssessmentCard a ty).moreMarker = none)) ∧
    (createAssessmentCard fiveIssues "EC2").issuesShown = ["i1", "i2", "i3"] ∧
    (createAssessmentCard fiveIssues "EC2").issuesShown.length = 3 ∧
    (createAssessmentCard fiveIssues "EC2").moreMarker =
      some "... and 2 more issues" := by
  refine ⟨fun a ty => ⟨fun h => ⟨rfl, ?_, ?_⟩, fun h => ⟨?_, ?_⟩⟩, rfl, rfl, rfl⟩
  · simp [createAssessmentCard]
    omega
  · simp [createAssessmentCard, if_pos h]
  · simp [createAssessmentCard, List.take_of_length_le h]
  · simp [createAssessmentCard]
    omega

/-- Concrete instantiations of `createAssessmentCard_truncates`: the
five-issue assessment triggers the truncation branch, and an assessment
with no issues triggers the no-marker branch. -/
theorem createAssessmentCard_truncates_witness :
    ((createAssessmentCard fiveIssues "EC2").issuesShown =
        (jsOrList fiveIssues.issues).take 3 ∧
      (createAssessmentCard fiveIssues "EC2").issuesShown.length = 3 ∧
      (createAssessmentCard fiveIssues "EC2").moreMarker =
        some ("... and " ++ toString ((jsOrList fiveIssues.issues).length - 3) ++
          " more issues")) ∧
    (createAssessmentCard {} "S3").issuesShown = jsOrList ({} : Assessment).issues ∧
    (createAssessmentCard {} "S3").moreMarker = none :=
  ⟨(createAssessmentCard_truncates.1 fiveIssues "EC2").1 (by decide),
   (createAssessmentCard_truncates.1 {} "S3").2 (by decide)⟩

/-- JS `s.toUpperCase()` on ASCII data, character by character. -/
def jsToUpper (s : String) : String :=
  String.mk (s.data.map Char.toUpper)

/-- JS `s.toLowerCase()` on ASCII data, character by character. -/
def jsToLower (s : String) : String :=
  String.mk (s.data.map Char.toLower)

/-- The dynamic fields of the recommendation-card HTML produced by
`createRecommendationCard` in dashboard.js. -/
structure RecommendationCard where
  cardClass : String
  badgeClass : String
  badgeText : String
  title : String
  description : String
  issue : String
  resourceType : Option String
deriving DecidableEq, Repr

/-- `createRecommendationCard` from dashboard.js: the priority (defaulted
to `MEDIUM`) is lower-cased for the two styling classes but interpolated
verbatim as the badge text; missing title/description/issue fall back to
fixed placeholder strings; the resource-type block renders only when the
field is truthy. -/
def createRecommendationCard (r : Recommendation) : RecommendationCard :=
  let priority := jsOrStr r.priority "MEDIUM"
  { cardClass := jsToLower priority,
    badgeClass := jsToLower priority,
    badgeText := priority,
    title := jsOrStr r.title "Security Recommendation",
    description := jsOrStr r.description "Review security configuration",
    issue := jsOrStr r.issue "General security concern",
    resourceType :=
      match r.resource_type with
      | none => none
      | some s => if s = "" then none else some s }

/-- A recommendation whose priority is stored in lowercase. -/
def lowercasePriorityRec : Recommendation :=
  { priority := some "high" }

/-- Counterexample to claim C7 as stated: for the record with priority
`"high"` the badge text is the verbatim `"high"`, not the uppercase
normalization `"HIGH"` the claim requires. -/
theorem createRecommendationCard_badge_not_uppercased :
    (createRecommendationCard lowercasePriorityRec).badgeText = "high" ∧
    jsToUpper (jsOrStr lowercasePriorityRec.priority "MEDIUM") = "HIGH" ∧
    (createRecommendationCard lowercasePriorityRec).badgeText ≠
      jsToUpper (jsOrStr lowercasePriorityRec.priority "MEDIUM") := by
  refine ⟨rfl, rfl, ?_⟩
  decide

/-- Claim C7 as amended: the badge shows the priority verbatim (defaulted
to `MEDIUM` when missing), the styling classes lower-case it, and missing
title/description/issue are replaced by the generic placeholder texts. -/
theorem createRecommendationCard_fields (r : Recommendation) :
    (createRecommendationCard r).badgeText = jsOrStr r.priority "MEDIUM" ∧
    (createRecommendationCard r).badgeClass = jsToLower (jsOrStr r.priority "MEDIUM") ∧
    (createRecommendationCard r).cardClass = jsToLower (jsOrStr r.priority "MEDIUM") ∧
    (r.priority = none → (createRecommendationCard r).badgeText = "MEDIUM") ∧
    (r.title = none → (createRecommendationCard r).title = "Security Recommendation") ∧
    (r.description = none →
      (createRecommendationCard r).description = "Review security configuration") ∧
    (r.issue = none → (createRecommendationCard r).issue = "General security concern") := by
  refine ⟨rfl, rfl, rfl, fun h => ?_, fun h => ?_, fun h => ?_, fun h => ?_⟩ <;>
    simp [createRecommendationCard, jsOrStr, h]

/-- Concrete instantiation of `createRecommendationCard_fields` on the
empty record, discharging every missing-field hypothesis. -/
theorem createRecommendationCard_fields_witness :
    (createRecommendationCard {}).badgeText = "MEDIUM" ∧
    (createRecommendationCard {}).title = "Security Recommendation" ∧
    (createRecommendationCard {}).description = "Review security configuration" ∧
    (createRecommendationCard {}).issue = "General security concern" :=
  ⟨(createRecommendationCard_fields {}).2.2.2.1 rfl,
   (createRecommendationCard_fields {}).2.2.2.2.1 rfl,
   (createRecommendationCard_fields {}).2.2.2.2.2.1 rfl,
   (createRecommendationCard_fields {}).2.2.2.2.2.2 rfl⟩

/-- JS `o || d` for natural-number fields (`undefined` and the falsy `0`
are replaced by the default). -/
def jsOrNat (o : Option Nat) (d : Nat) : Nat :=
  match o with
  | none => d
  | some n => if n = 0 then d else n

/-- The values `updateKPICards` writes into the KPI cards. -/
structure KPIValues where
  overallScore : Int
  overallRiskLevel : String
  ec2Score : Int
  ec2Count : Nat
  s3Score : Int
  s3Count : Nat
  criticalCount : Nat
deriving DecidableEq, Repr

/-- `updateKPICards` from dashboard.js, embedded as the computation of the
displayed values.  The source reads `dashboardData.summary` without
optional chaining and then dereferences `summary.overall?...`, so a payload
with no `summary` raises a `TypeError`; that is modelled by the `Except`
error case.  All the per-category accesses use optional chaining plus
`|| 0`, so a present-but-partial summary degrades to zeros. -/
def updateKPICards (d : DashboardData) : Except String KPIValues :=
  match d.summary with
  | none =>
    Except.error "TypeError: cannot read properties of undefined (reading overall)"
  | some summary =>
    let overallScore := jsOrQ (summary.overall.bind SummaryEntry.average_score) 0
    let ec2Score := jsOrQ (summary.ec2.bind SummaryEntry.average_score) 0
    let s3Score := jsOrQ (summary.s3.bind SummaryEntry.average_score) 0
    Except.ok
      { overallScore := jsRound overallScore,
        overallRiskLevel := getRiskLevel overallScore,
        ec2Score := jsRound ec2Score,
        ec2Count := jsOrNat (summary.ec2.bind SummaryEntry.count) 0,
        s3Score := jsRound s3Score,
        s3Count := jsOrNat (summary.s3.bind SummaryEntry.count) 0,
        criticalCount := countCriticalIssues d }

/-- Counterexample to claim C8 as stated: on a payload with no `summary`
object, `updateKPICards` does not complete with defaults — it fails with a
`TypeError` (the source dereferences `summary.overall` without guarding
`summary` itself). -/
theorem updateKPICards_throws_without_summary :
    updateKPICards {} =
      Except.error "TypeError: cannot read properties of undefined (reading overall)" ∧
    ({} : DashboardData).summary = none := ⟨rfl, rfl⟩

/-- Claim C8 as amended: aggregation degrades to defaults on missing
`summary.ec2` / `summary.s3` / missing assessment lists (score 0, count 0,
critical count 0) — provided the `summary` object itself is present;
`countCriticalIssues` and the chart computations complete on every
payload, but `updateKPICards` fails on a payload with no `summary`. -/
theorem updateKPICards_degrades (d : DashboardData) (s : Summary)
    (h : d.summary = some s) :
    (∃ k, updateKPICards d = Except.ok k ∧
      (s.ec2 = none → k.ec2Score = 0 ∧ k.ec2Count = 0) ∧
      (s.s3 = none → k.s3Score = 0 ∧ k.s3Count = 0) ∧
      (s.overall = none → k.overallScore = 0) ∧
      k.criticalCount = countCriticalIssues d) ∧
    (d.ec2 = none → d.s3 = none →
      countCriticalIssues d = 0 ∧
      updateRiskDistributionChart d = { Low := 0, Medium := 0, High := 0, Critical := 0 } ∧
      updateEC2BreakdownChart d =
        { encrypted := 0, notEncrypted := 0, publicAccess := 0, restricted := 0 } ∧
      updateS3BreakdownChart d =
        { encrypted := 0, notEncrypted := 0, publicAccessAllowed := 0, secured := 0 }) := by
  constructor
  · cases d with
    | mk sm dec2 ds3 drecs =>
      obtain rfl : sm = some s := h
      refine ⟨_, rfl, ?_, ?_, ?_, rfl⟩
      · intro he
        constructor
        · simp [he, jsOrQ, jsRound]
          norm_num
        · simp [he, jsOrNat]
      · intro hs
        constructor
        · simp [hs, jsOrQ, jsRound]
          norm_num
        · simp [hs, jsOrNat]
      · intro ho
        simp [ho, jsOrQ, jsRound]
        norm_num
  · intro he hs
    refine ⟨?_, ?_, ?_, ?_⟩ <;>
      simp [he, hs, countCriticalIssues, countCriticalFold, getAssessments,
        updateRiskDistributionChart, updateEC2BreakdownChart, updateS3BreakdownChart]

/-- Payload whose `summary` is present but entirely empty. -/
def bareSummaryPayload : DashboardData :=
  { summary := some {} }

/-- Concrete instantiation of `updateKPICards_degrades` on a payload whose
summary exists but has no per-category entries and which has no assessment
lists: every KPI degrades to 0. -/
theorem updateKPICards_degrades_witness :
    (∃ k, updateKPICards bareSummaryPayload = Except.ok k ∧
      k.ec2Score = 0 ∧ k.ec2Count = 0 ∧ k.s3Score = 0 ∧ k.s3Count = 0 ∧
      k.overallScore = 0) ∧
    countCriticalIssues bareSummaryPayload = 0 := by
  obtain ⟨⟨k, hk, he, hs, ho, _⟩, hrest⟩ :=
    updateKPICards_degrades bareSummaryPayload {} rfl
  exact ⟨⟨k, hk, (he rfl).1, (he rfl).2, (hs rfl).1, (hs rfl).2, ho rfl⟩,
    (hrest rfl rfl).1⟩

/-- JSON-like values, covering everything `mockApiResponse` builds. -/
inductive Json where
  | obj : List (String × Json) → Json
  | arr : List Json → Json
  | str : String → Json
  | num : Int → Json
  | bool : Bool → Json

/-- JS `String.prototype.startsWith` on character lists. -/
def listStartsWith : List Char → List Char → Bool
  | _, [] => true
  | [], _ :: _ => false
  | a :: s, b :: p => a == b && listStartsWith s p

/-- JS `String.prototype.includes` on character lists: some suffix of the
subject starts with the pattern. -/
def listIncludes (s p : List Char) : Bool :=
  match s with
  | [] => listStartsWith [] p
  | _ :: rest => listStartsWith s p || listIncludes rest p

/-- JS `endpoint.startsWith(pat)`. -/
def jsStartsWith (s pat : String) : Bool :=
  listStartsWith s.data pat.data

/-- JS `endpoint.includes(pat)`. -/
def jsIncludes (s pat : String) : Bool :=
  listIncludes s.data pat.data

/-- The `summary` slice of the mock `sample` object in api-client.js. -/
def sampleSummary : Json :=
  Json.obj
    [("overall", Json.obj [("average_score", Json.num 85)]),
     ("ec2", Json.obj [("average_score", Json.num 90), ("count", Json.num 2)]),
     ("s3", Json.obj [("average_score", Json.num 80), ("count", Json.num 1)])]

/-- The `ec2` slice of the mock `sample` object in api-client.js. -/
def sampleEc2 : Json :=
  Json.obj
    [("assessments", Json.arr
      [Json.obj
        [("instance_name", Json.str "web-server-01"),
         ("security_score", Json.num 92),
         ("risk_level", Json.str "Low"),
         ("ebs_encryption_enabled", Json.bool true),
         ("has_public_ip", Json.bool false),
         ("state", Json.str "running"),
         ("issues", Json.arr [])],
       Json.obj
        [("instance_name", Json.str "db-server-01"),
         ("security_score", Json.num 78),
         ("risk_level", Json.str "Medium"),
         ("ebs_encryption_enabled", Json.bool false),
         ("has_public_ip", Json.bool true),
         ("state", Json.str "stopped"),
         ("issues", Json.arr [Json.str "EBS not encrypted"])]])]

/-- The `s3` slice of the mock `sample` object in api-client.js. -/
def sampleS3 : Json :=
  Json.obj
    [("assessments", Json.arr
      [Json.obj
        [("bucket_name", Json.str "my-app-data"),
         ("security_score", Json.num 80),
         ("risk_level", Json.str "Medium"),
         ("encryption_enabled", Json.bool true),
         ("public_access_block_disabled", Json.bool false),
         ("issues", Json.arr [])]])]

/-- The `recommendations` slice of the mock `sample` object. -/
def sampleRecommendations : Json :=
  Json.arr
    [Json.obj
      [("title", Json.str "Enable EBS encryption"),
       ("description", Json.str
         "EBS volumes should be encrypted to protect data at rest."),
       ("priority", Json.str "HIGH"),
       ("issue", Json.str "EBS not encrypted"),
       ("resource_type", Json.str "EC2")]]

/-- The whole mock `sample` object in api-client.js. -/
def sample : Json :=
  Json.obj
    [("summary", sampleSummary), ("ec2", sampleEc2), ("s3", sampleS3),
     ("recommendations", sampleRecommendations)]

/-- `mockApiResponse` from api-client.js: slice selection by substring
match on the endpoint, with the empty object as generic fallback. -/
def mockApiResponse (endpoint : String) (method : String) : Json :=
  if jsIncludes endpoint "/api/dashboard" then sample
  else if jsIncludes endpoint "/api/assessments" then
    Json.obj [("ec2", sampleEc2), ("s3", sampleS3)]
  else if jsIncludes endpoint "/api/recommendations" then sampleRecommendations
  else if jsIncludes endpoint "/api/security-score-summary" then sampleSummary
  else Json.obj []

/-- Outcome of the black-box transport (`fetch` + status check + body
parse): either a parsed JSON body or a thrown error's message. -/
inductive Transport where
  | success : Json → Transport
  | failure : String → Transport

/-- `APIClient.request` from api-client.js, embedded over the transport
outcome.  The returned list collects the console diagnostics in order
(`console.error` then, on the mock path, `console.warn`). -/
def APIClient.request (endpoint : String) (method : String) (t : Transport) :
    Except String Json × List String :=
  match t with
  | Transport.success j => (Except.ok j, [])
  | Transport.failure err =>
    if (endpoint != "") && jsStartsWith endpoint "/api" then
      (Except.ok (mockApiResponse endpoint method),
        ["API Request Error: " ++ err, "Falling back to mock data for " ++ endpoint])
    else
      (Except.error err, ["API Request Error: " ++ err])

/-- Claim C3: for each of the six endpoint names the client defines, a
transport failure yields the deterministic fallback payload for that
endpoint (never a propagated error), after logging the error and the
fallback warning. -/
theorem request_fallback_recognized (err : String) :
    APIClient.request "/api/dashboard" "GET" (Transport.failure err) =
      (Except.ok sample,
        ["API Request Error: " ++ err,
         "Falling back to mock data for /api/dashboard"]) ∧
    APIClient.request "/api/assessments" "GET" (Transport.failure err) =
      (Except.ok (Json.obj [("ec2", sampleEc2), ("s3", sampleS3)]),
        ["API Request Error: " ++ err,
         "Falling back to mock data for /api/assessments"]) ∧
    APIClient.request "/api/recommendations" "GET" (Transport.failure err) =
      (Except.ok sampleRecommendations,
        ["API Request Error: " ++ err,
         "Falling back to mock data for /api/recommendations"]) ∧
    APIClient.request "/api/security-score-summary" "GET" (Transport.failure err) =
      (Except.ok sampleSummary,
        ["API Request Error: " ++ err,
         "Falling back to mock data for /api/security-score-summary"]) ∧
    APIClient.request "/api/assessment" "POST" (Transport.failure err) =
      (Except.ok (Json.obj []),
        ["API Request Error: " ++ err,
         "Falling back to mock data for /api/assessment"]) ∧
    APIClient.request "/api/recommendation" "POST" (Transport.failure err) =
      (Except.ok (Json.obj []),
        ["API Request Error: " ++ err,
         "Falling back to mock data for /api/recommendation"]) :=
  ⟨rfl, rfl, rfl, rfl, rfl, rfl⟩

/-- Claim C10: the mock fallback applies only to endpoints starting with
`/api` — an empty or non-`/api` endpoint re-throws the transport error —
and an `/api`-prefixed endpoint matching none of the four read paths falls
back to the empty object. -/
theorem request_fallback_scope :
    (∀ endpoint m err : String,
      (endpoint = "" ∨ jsStartsWith endpoint "/api" = false) →
      APIClient.request endpoint m (Transport.failure err) =
        (Except.error err, ["API Request Error: " ++ err])) ∧
    (∀ endpoint m err : String,
      jsStartsWith endpoint "/api" = true →
      jsIncludes endpoint "/api/dashboard" = false →
      jsIncludes endpoint "/api/assessments" = false →
      jsIncludes endpoint "/api/recommendations" = false →
      jsIncludes endpoint "/api/security-score-summary" = false →
      APIClient.request endpoint m (Transport.failure err) =
        (Except.ok (Json.obj []),
          ["API Request Error: " ++ err,
           "Falling back to mock data for " ++ endpoint])) := by
  constructor
  · intro endpoint m err h
    rcases h with rfl | h
    · rfl
    · simp [APIClient.request, h]
  · intro endpoint m err hstart h1 h2 h3 h4
    have hne : endpoint ≠ "" := by
      intro hcon
      rw [hcon] at hstart
      simp [jsStartsWith, listStartsWith] at hstart
    simp [APIClient.request, mockApiResponse, hstart, hne, h1, h2, h3, h4]

/-- Concrete instantiations of `request_fallback_scope`: a non-`/api`
endpoint and the empty endpoint re-throw, an unknown `/api` endpoint
falls back to the empty object. -/
theorem request_fallback_scope_witness :
    APIClient.request "/health" "GET" (Transport.failure "down") =
      (Except.error "down", ["API Request Error: down"]) ∧
    APIClient.request "" "GET" (Transport.failure "down") =
      (Except.error "down", ["API Request Error: down"]) ∧
    APIClient.request "/api/ping" "GET" (Transport.failure "down") =
      (Except.ok (Json.obj []),
        ["API Request Error: down", "Falling back to mock data for /api/ping"]) :=
  ⟨request_fallback_scope.1 "/health" "GET" "down" (Or.inr (by decide)),
   request_fallback_scope.1 "" "GET" "down" (Or.inl rfl),
   request_fallback_scope.2 "/api/ping" "GET" "down" (by decide) (by decide)
     (by decide) (by decide) (by decide)⟩
